import Mathlib

/-
Shallow embedding of the cross-board status-reconciliation engine of
src/epo-automation/epo-bulk-automation.js and the webhook trigger adapter
of src/unnamed/part_004 (processWebhookEvent).

Remote I/O is modelled by an explicit Store value: reads are pure lookups,
the one mutation is modelled by recording whether it was issued and whether
the remote accepted it (mutateOk).  A thrown JavaScript error on a remote
call is modelled by the corresponding lookup reporting failure (fetchOk
false / mutateOk false), matching the try/catch structure of the source.
-/

/- Board and column identifiers from epo-bulk-automation.js (BOARD_IDS,
COLUMN_IDS, STATUS_VALUES).  STATUS_VALUES.TO_DO is the index 8, which the
bulk board renders as the label "To Do". -/

def BULK_BOARD_ID : String := "8768285252"

def EPO_STATUS_COLUMN : String := "deal_stage"

/-- JavaScript `a || d` on an optional string: the empty string and a
missing value are falsy.  Models `statusColumn?.text || defaultText`. -/
def jsOr (a : Option String) (d : String) : String :=
  match a with
  | some t => if t = "" then d else t
  | none => d

/-- One fetched EPO (dependency) item: the text of its `deal_stage` status
column, as read by checkAllEPOsQAPassed (`epo.column_values[0]?.text`). -/
structure EPOItem where
  id : Nat
  statusText : Option String
deriving Repr, DecidableEq

/-- The status test of checkAllEPOsQAPassed, line 165 of
epo-bulk-automation.js: both "QA Passed" and "Cancelled" count as ready. -/
def isReadyStatus (s : Option String) : Bool :=
  s == some "QA Passed" || s == some "Cancelled"

/-- Result record of checkAllEPOsQAPassed.  The source keeps the field name
qaPassedCount for the ready count, for compatibility. -/
structure EPOEvalResult where
  allPassed : Bool
  qaPassedCount : Nat
  totalCount : Nat
deriving Repr, DecidableEq

/-- The pure evaluation core of checkAllEPOsQAPassed (lines 158 to 175):
count the fetched items whose status is "QA Passed" or "Cancelled" and
compare with the number of fetched items. -/
def evaluateEPOItems (epoItems : List EPOItem) : EPOEvalResult :=
  let readyCount := (epoItems.filter (fun e => isReadyStatus e.statusText)).length
  { allPassed := readyCount == epoItems.length
    qaPassedCount := readyCount
    totalCount := epoItems.length }

/-- checkAllEPOsQAPassed: evaluates the fetched items; if the batched fetch
threw, the catch block (lines 177 to 180) returns allPassed false with zero
counts instead of propagating the error. -/
def checkAllEPOsQAPassed (fetched : Option (List EPOItem)) : EPOEvalResult :=
  match fetched with
  | none => { allPassed := false, qaPassedCount := 0, totalCount := 0 }
  | some items => evaluateEPOItems items

/-- One bulk (dependent) item as decoded by the board query: the text of
its status column and the linked item ids of its EPO-connection board
relation column (none models a missing column or missing linked_items). -/
structure BulkItemData where
  id : Nat
  statusText : Option String
  epoIds : Option (List Nat)
deriving Repr, DecidableEq

/-- One linked item of a board relation column of an EPO item, with the id
of its host board, as fetched by processEPOConnections. -/
structure LinkedItem where
  id : Nat
  boardId : String
deriving Repr, DecidableEq

/-- The remote store as seen through the monday API calls the engine makes.
epoStatus i is none when item i no longer exists (the batched items query
silently drops such ids); some s is an existing item whose status column
text is s.  fetchOk models whether the batched EPO status query succeeds,
mutateOk whether the status mutation for a bulk item id is accepted,
epoRelations the board relation columns of an EPO item (linked items per
column), and bulkLookup the by-id fetch of bulk items. -/
structure Store where
  epoStatus : Nat → Option (Option String)
  fetchOk : List Nat → Bool
  mutateOk : Nat → Bool
  epoRelations : Nat → Option (List (List LinkedItem))
  bulkLookup : Nat → Option BulkItemData

/-- The batched EPO status fetch of checkAllEPOsQAPassed: on success the
store returns the existing items among the requested ids, in order; ids
that no longer exist are simply absent from the response. -/
def fetchEPOItems (st : Store) (ids : List Nat) : Option (List EPOItem) :=
  if st.fetchOk ids then
    some (ids.filterMap (fun i =>
      (st.epoStatus i).map (fun s => { id := i, statusText := s })))
  else none

/-- Whether a dependency id is present in the store with a ready status. -/
def depReady (st : Store) (i : Nat) : Bool :=
  match st.epoStatus i with
  | some s => isReadyStatus s
  | none => false

/-- Per-item result of processBulkItem.  updated and reason mirror the
returned object; mutationIssued records whether updateBulkItemStatus was
called at all (even if the remote then rejected it). -/
structure Outcome where
  updated : Bool
  reason : Option String
  mutationIssued : Bool
deriving Repr, DecidableEq

/-- updateBulkItemStatus: issues the change_column_value mutation for the
given item; returns whether the remote accepted it (on rejection the
source rethrows into the catch of processBulkItem). -/
def updateBulkItemStatus (st : Store) (itemId : Nat) : Bool :=
  st.mutateOk itemId

/-- processBulkItem (lines 93 to 134): skip if the status text is already
"To Do" or "Done"; skip if there are no EPO connections; evaluate the
connected EPO statuses; mutate only when all passed; a throwing mutation is
caught and reported as a processing error. -/
def processBulkItem (st : Store) (b : BulkItemData) : Outcome :=
  let currentStatus := jsOr b.statusText "No status"
  if currentStatus = "To Do" ∨ currentStatus = "Done" then
    { updated := false, reason := some ("Already " ++ currentStatus),
      mutationIssued := false }
  else
    match b.epoIds with
    | none =>
        { updated := false, reason := some "No EPO connections",
          mutationIssued := false }
    | some epoIds =>
        if epoIds.isEmpty then
          { updated := false, reason := some "No EPO connections",
            mutationIssued := false }
        else
          let ev := checkAllEPOsQAPassed (fetchEPOItems st epoIds)
          if ev.allPassed then
            if updateBulkItemStatus st b.id then
              { updated := true, reason := none, mutationIssued := true }
            else
              { updated := false, reason := some "Processing error",
                mutationIssued := true }
          else
            { updated := false,
              reason := some ("EPOs not ready: " ++ toString ev.qaPassedCount
                ++ "/" ++ toString ev.totalCount ++ " QA Passed"),
              mutationIssued := false }

/-- Run summary returned by runEPOBulkAutomation and
processEPOConnections. -/
structure RunSummary where
  processed : Nat
  updated : Nat
deriving Repr, DecidableEq

/-- Effect of one processed item on the remote state: a successful update
sets the status column to index 8, rendered as "To Do". -/
def applyOutcome (st : Store) (b : BulkItemData) : BulkItemData :=
  if (processBulkItem st b).updated then { b with statusText := some "To Do" }
  else b

/-- The outcome list of one sweep over a fetched snapshot of bulk items. -/
def runOutcomes (st : Store) (bulkItems : List BulkItemData) : List Outcome :=
  bulkItems.map (fun b => processBulkItem st b)

/-- The list of item ids for which a mutation call was issued during a
live sweep. -/
def runMutationCalls (st : Store) (bulkItems : List BulkItemData) : List Nat :=
  (bulkItems.filter (fun b => (processBulkItem st b).mutationIssued)).map
    (fun b => b.id)

/-- runEPOBulkAutomation (lines 31 to 88): fetch the snapshot of bulk
items, process each in order, return the summary (processed is the number
of fetched items, updated the number of successful updates) together with
the remote state of the items after the run. -/
def runEPOBulkAutomation (st : Store) (bulkItems : List BulkItemData) :
    RunSummary × List BulkItemData :=
  ({ processed := bulkItems.length
     updated := ((runOutcomes st bulkItems).filter (fun o => o.updated)).length },
   bulkItems.map (fun b => applyOutcome st b))

/-- Per-item test of dryRunEPOBulkAutomation (lines 359 to 387): connection
check first, then the terminal-status check, then the evaluation; counts an
item as would-update when allPassed, without any mutation call. -/
def dryRunWouldUpdate (st : Store) (b : BulkItemData) : Bool :=
  match b.epoIds with
  | none => false
  | some epoIds =>
      if epoIds.isEmpty then false
      else
        let currentStatus := jsOr b.statusText "No status"
        if currentStatus = "To Do" ∨ currentStatus = "Done" then false
        else (checkAllEPOsQAPassed (fetchEPOItems st epoIds)).allPassed

/-- dryRunEPOBulkAutomation (lines 324 to 394): returns the logged
would-update count and the list of mutation calls issued, which is empty
because the dry-run path contains no mutation call. -/
def dryRunEPOBulkAutomation (st : Store) (bulkItems : List BulkItemData) :
    Nat × List Nat :=
  ((bulkItems.filter (fun b => dryRunWouldUpdate st b)).length, [])

/-- Relation resolution of processEPOConnections (lines 225 to 236): keep,
over all board relation columns of the EPO item, the linked items whose
host board is the bulk batch traceability board, and take their ids. -/
def connectedBulkIds (cols : List (List LinkedItem)) : List Nat :=
  (cols.map (fun col =>
    (col.filter (fun li => li.boardId = BULK_BOARD_ID)).map
      (fun li => li.id))).flatten

/-- The bulk items fetched and processed by a targeted run: the per-board
filtered linked ids, resolved through the by-id fetch (absent ids are
dropped by the store). -/
def targetedBulkItems (st : Store) (epoId : Nat) : List BulkItemData :=
  match st.epoRelations epoId with
  | none => []
  | some cols => (connectedBulkIds cols).filterMap st.bulkLookup

/-- processEPOConnections (lines 187 to 293): resolve the EPO item, keep
only links to the bulk board, return zero counts when the EPO is missing or
no links remain, otherwise run the same per-item loop as the full sweep
over the fetched connected items. -/
def processEPOConnections (st : Store) (epoId : Nat) :
    RunSummary × List BulkItemData :=
  match st.epoRelations epoId with
  | none => ({ processed := 0, updated := 0 }, [])
  | some cols =>
      if (connectedBulkIds cols).isEmpty then
        ({ processed := 0, updated := 0 }, [])
      else
        runEPOBulkAutomation st ((connectedBulkIds cols).filterMap st.bulkLookup)

/- Trigger adapter: processWebhookEvent of src/unnamed/part_004.  The
payload fields mirror the WebhookPayload interface there; the decision of
whether to spawn the targeted automation is modelled as a pure function
from the payload to an action. -/

/-- The event object of an inbound monday webhook payload. -/
structure WebhookEventPayload where
  eventKind : Option String
  columnId : Option String
  pulseId : Option Nat
  labelText : Option String
deriving Repr, DecidableEq

/-- An inbound webhook payload: an optional event object and an optional
top-level type string. -/
structure WebhookPayload where
  event : Option WebhookEventPayload
  topType : Option String
deriving Repr, DecidableEq

/-- JavaScript truthiness of an optional string: missing and empty are
falsy. -/
def jsTruthy (a : Option String) : Bool :=
  match a with
  | some t => !(t == "")
  | none => false

/-- JavaScript `a || b` on optional strings. -/
def jsOrOpt (a b : Option String) : Option String :=
  if jsTruthy a then a else b

/-- Event type resolution of part_004 line 75:
`body.event?.type || body.type || 'unknown'`. -/
def eventTypeOf (p : WebhookPayload) : String :=
  jsOr (jsOrOpt (p.event.bind (fun e => e.eventKind)) p.topType) "unknown"

/-- The action the webhook handler takes for one payload. -/
inductive WebhookAction where
  | runTargeted (epoId : Nat)
  | noAction (note : String)
deriving Repr, DecidableEq

/-- Whether an action is a targeted automation run. -/
def isTargetedRun (a : WebhookAction) : Bool :=
  match a with
  | WebhookAction.runTargeted _ => true
  | WebhookAction.noAction _ => false

/-- processWebhookEvent (part_004 lines 116 to 176): spawn the targeted
automation only when the resolved event type is update_column_value, the
changed column is the EPO status column, the new label is "QA Passed" or
"Cancelled", and the payload carries a truthy pulseId (in JavaScript the
number 0 is falsy). -/
def processWebhookEvent (p : WebhookPayload) : WebhookAction :=
  if eventTypeOf p = "update_column_value" ∧
      p.event.bind (fun e => e.columnId) = some EPO_STATUS_COLUMN then
    let newStatus := p.event.bind (fun e => e.labelText)
    if jsTruthy newStatus ∧
        (newStatus = some "QA Passed" ∨ newStatus = some "Cancelled") then
      match p.event.bind (fun e => e.pulseId) with
      | some epoId =>
          if epoId ≠ 0 then WebhookAction.runTargeted epoId
          else WebhookAction.noAction "No EPO ID found in webhook payload"
      | none => WebhookAction.noAction "No EPO ID found in webhook payload"
    else
      WebhookAction.noAction "no automation needed"
  else
    WebhookAction.noAction "other event"

/- Concrete stores and payloads used by counterexamples and witnesses. -/

/-- A store in which EPO item 1 exists with status "QA Passed", every other
EPO id has been deleted, and all remote calls succeed. -/
def demoStore : Store :=
  { epoStatus := fun i => if i = 1 then some (some "QA Passed") else none
    fetchOk := fun _ => true
    mutateOk := fun _ => true
    epoRelations := fun _ => none
    bulkLookup := fun _ => none }

/-- A store in which all EPO items are ready but every status mutation is
rejected by the remote. -/
def mutRejectStore : Store :=
  { epoStatus := fun _ => some (some "QA Passed")
    fetchOk := fun _ => true
    mutateOk := fun _ => false
    epoRelations := fun _ => none
    bulkLookup := fun _ => none }

/-- A store in which the batched EPO status fetch always fails. -/
def fetchFailStore : Store :=
  { epoStatus := fun _ => some (some "QA Passed")
    fetchOk := fun _ => false
    mutateOk := fun _ => true
    epoRelations := fun _ => none
    bulkLookup := fun _ => none }

/-- A store in which EPO item 5 is linked to bulk item 10 on the bulk board
and to item 99 on an unrelated board. -/
def relStore : Store :=
  { epoStatus := fun _ => some (some "QA Passed")
    fetchOk := fun _ => true
    mutateOk := fun _ => true
    epoRelations := fun i =>
      if i = 5 then some [[⟨10, BULK_BOARD_ID⟩, ⟨99, "1234"⟩]] else none
    bulkLookup := fun i =>
      if i = 10 then some ⟨10, none, some [1]⟩ else none }

/-- A webhook payload for a qualifying status change on the EPO status
column that carries no pulseId. -/
def payloadNoPulseId : WebhookPayload :=
  { event := some
      { eventKind := some "update_column_value"
        columnId := some "deal_stage"
        pulseId := none
        labelText := some "QA Passed" }
    topType := none }

/- Helper lemmas shared by the claim theorems. -/

/-- The evaluator reports allPassed exactly when every fetched item has a
ready status (including the empty list, where the count comparison is 0
against 0). -/
lemma evaluateEPOItems_allPassed_iff (items : List EPOItem) :
    (evaluateEPOItems items).allPassed = true ↔
      ∀ e ∈ items, isReadyStatus e.statusText = true := by
  simp [evaluateEPOItems, List.filter_length_eq_length]

/-- Characterization of processBulkItem: a mutation is issued exactly when
the status is not terminal, the connection list is present and non-empty,
and the evaluation of the fetched statuses passed; the outcome is updated
exactly when a mutation was issued and accepted; a reason is present
exactly when the item was not updated; and a terminal item is skipped with
an Already reason. -/
lemma processBulkItem_spec (st : Store) (b : BulkItemData) :
    ((processBulkItem st b).mutationIssued = true ↔
      ¬(jsOr b.statusText "No status" = "To Do" ∨
        jsOr b.statusText "No status" = "Done") ∧
      ∃ ids, b.epoIds = some ids ∧ ids.isEmpty = false ∧
        (checkAllEPOsQAPassed (fetchEPOItems st ids)).allPassed = true) ∧
    ((processBulkItem st b).updated = true ↔
      (processBulkItem st b).mutationIssued = true ∧ st.mutateOk b.id = true) ∧
    (processBulkItem st b).reason.isSome = !(processBulkItem st b).updated ∧
    ((jsOr b.statusText "No status" = "To Do" ∨
        jsOr b.statusText "No status" = "Done") →
      processBulkItem st b =
        { updated := false,
          reason := some ("Already " ++ jsOr b.statusText "No status"),
          mutationIssued := false }) := by
  rcases b with ⟨bid, bstatus, bepo⟩
  by_cases hterm : jsOr bstatus "No status" = "To Do" ∨ jsOr bstatus "No status" = "Done"
  · simp [processBulkItem, hterm]
  · cases bepo with
    | none => simp [processBulkItem, hterm]
    | some ids =>
        by_cases hemp : ids.isEmpty
        · have hemp2 : ids = [] := by simpa using hemp
          subst hemp2
          simp [processBulkItem, hterm]
        · have hne : ids ≠ [] := by simpa using hemp
          by_cases hall : (checkAllEPOsQAPassed (fetchEPOItems st ids)).allPassed = true
          · by_cases hmut : st.mutateOk bid = true
            · simp [processBulkItem, updateBulkItemStatus, hterm, hemp, hall, hmut, hne]
            · simp [processBulkItem, updateBulkItemStatus, hterm, hemp, hall, hmut, hne]
          · simp [processBulkItem, hterm, hemp, hall, hne]

/-- An item whose status text is already "To Do" is skipped. -/
lemma processBulkItem_toDo (st : Store) (b : BulkItemData)
    (h : b.statusText = some "To Do") :
    processBulkItem st b =
      { updated := false, reason := some "Already To Do",
        mutationIssued := false } := by
  have hj : jsOr (some "To Do") "No status" = "To Do" := by decide
  simp [processBulkItem, h, hj]

/-- After a run has applied its outcome to an item, reprocessing that item
against the same store never updates it again. -/
lemma second_pass_no_update (st : Store) (b : BulkItemData) :
    (processBulkItem st (applyOutcome st b)).updated = false := by
  by_cases hu : (processBulkItem st b).updated = true
  · have ha : applyOutcome st b = { b with statusText := some "To Do" } := by
      simp [applyOutcome, hu]
    rw [ha, processBulkItem_toDo st _ rfl]
  · have ha : applyOutcome st b = b := by
      simp [applyOutcome, hu]
    rw [ha]
    exact Bool.not_eq_true _ |>.mp hu

/-- When the mutation for an item would be accepted, the dry-run test for
that item agrees with the live outcome. -/
lemma dryRunWouldUpdate_eq_updated (st : Store) (b : BulkItemData)
    (hm : st.mutateOk b.id = true) :
    dryRunWouldUpdate st b = (processBulkItem st b).updated := by
  rcases b with ⟨bid, bstatus, bepo⟩
  by_cases hterm : jsOr bstatus "No status" = "To Do" ∨ jsOr bstatus "No status" = "Done"
  · cases bepo with
    | none => simp [dryRunWouldUpdate, processBulkItem, hterm]
    | some ids =>
        by_cases hemp : ids.isEmpty
        · simp [dryRunWouldUpdate, processBulkItem, hterm, hemp]
        · simp [dryRunWouldUpdate, processBulkItem, hterm, hemp]
  · cases bepo with
    | none => simp [dryRunWouldUpdate, processBulkItem, hterm]
    | some ids =>
        by_cases hemp : ids.isEmpty
        · simp [dryRunWouldUpdate, processBulkItem, hterm, hemp]
        · by_cases hall : (checkAllEPOsQAPassed (fetchEPOItems st ids)).allPassed = true
          · simp at hm
            simp [dryRunWouldUpdate, processBulkItem, updateBulkItemStatus,
              hterm, hemp, hall, hm]
          · simp [dryRunWouldUpdate, processBulkItem, hterm, hemp, hall]

/-- Resolving a list of ids through a by-id lookup that is defined on all
of them and returns items carrying their own id gives back the id list. -/
lemma filterMap_lookup_ids (f : Nat → Option BulkItemData)
    (hwf : ∀ i b, f i = some b → b.id = i) :
    ∀ l : List Nat, (∀ i ∈ l, (f i).isSome = true) →
      ((l.filterMap f).map (fun b => b.id)) = l := by
  intro l
  induction l with
  | nil => intro _; rfl
  | cons i t ih =>
      intro hall
      have hi := hall i (by simp)
      rcases Option.isSome_iff_exists.mp hi with ⟨b, hb⟩
      simp [List.filterMap_cons, hb, hwf i b hb,
        ih (fun j hj => hall j (by simp [hj]))]

/- Claim theorems. -/

/-- Claim C1: for every non-empty list of fetched EPO statuses, the
readiness evaluation reports allPassed exactly when every status in the
list is "QA Passed" or "Cancelled", with the ready count equal to the
number of ready statuses and totalCount equal to the list length. -/
theorem evaluator_allPassed_iff_all_ready (epoItems : List EPOItem)
    (h : epoItems ≠ []) :
    ((evaluateEPOItems epoItems).allPassed = true ↔
      ∀ e ∈ epoItems, isReadyStatus e.statusText = true) ∧
    (evaluateEPOItems epoItems).qaPassedCount =
      (epoItems.filter (fun e => isReadyStatus e.statusText)).length ∧
    (evaluateEPOItems epoItems).totalCount = epoItems.length :=
  ⟨evaluateEPOItems_allPassed_iff epoItems, rfl, rfl⟩

/-- Claim C1 witness: the evaluation of the two-element ready list. -/
theorem evaluator_allPassed_iff_all_ready_witness :
    ((evaluateEPOItems [⟨1, some "QA Passed"⟩, ⟨2, some "Cancelled"⟩]).allPassed = true ↔
      ∀ e ∈ [(⟨1, some "QA Passed"⟩ : EPOItem), ⟨2, some "Cancelled"⟩],
        isReadyStatus e.statusText = true) ∧
    (evaluateEPOItems [⟨1, some "QA Passed"⟩, ⟨2, some "Cancelled"⟩]).qaPassedCount =
      ([(⟨1, some "QA Passed"⟩ : EPOItem), ⟨2, some "Cancelled"⟩].filter
        (fun e => isReadyStatus e.statusText)).length ∧
    (evaluateEPOItems [⟨1, some "QA Passed"⟩, ⟨2, some "Cancelled"⟩]).totalCount =
      [(⟨1, some "QA Passed"⟩ : EPOItem), ⟨2, some "Cancelled"⟩].length :=
  evaluator_allPassed_iff_all_ready [⟨1, some "QA Passed"⟩, ⟨2, some "Cancelled"⟩]
    (by decide)

/-- Claim C2 counterexample: the evaluator applied to the empty fetched
collection reports allPassed true (zero ready out of zero), not false as
the claim states for evaluate of the empty input. -/
theorem evaluate_empty_is_ready : (evaluateEPOItems []).allPassed = true := rfl

/-- Claim C2 amended: the per-item pipeline never updates an item whose
linked dependency set is missing or empty (the guard fires before any
evaluation), although the evaluator itself reports allPassed true on an
empty fetched collection. -/
theorem empty_dependencies_never_updated (st : Store) (b : BulkItemData)
    (h : b.epoIds = none ∨ b.epoIds = some []) :
    (processBulkItem st b).updated = false ∧
    (processBulkItem st b).mutationIssued = false ∧
    (evaluateEPOItems []).allPassed = true := by
  have spec := processBulkItem_spec st b
  have hmi : (processBulkItem st b).mutationIssued = false := by
    cases hx : (processBulkItem st b).mutationIssued
    · rfl
    · rcases spec.1.mp hx with ⟨_, ids, hids, hne, _⟩
      rcases h with h | h <;> rw [h] at hids
      · exact absurd hids (by simp)
      · rw [Option.some.injEq] at hids
        subst hids
        simp at hne
  have hu : (processBulkItem st b).updated = false := by
    cases hy : (processBulkItem st b).updated
    · rfl
    · have hz := (spec.2.1.mp hy).1
      rw [hmi] at hz
      exact absurd hz (by simp)
  exact ⟨hu, hmi, rfl⟩

/-- Claim C2 witness: a bulk item without a connection column is skipped. -/
theorem empty_dependencies_never_updated_witness :
    (processBulkItem demoStore ⟨10, some "Working on it", none⟩).updated = false ∧
    (processBulkItem demoStore ⟨10, some "Working on it", none⟩).mutationIssued = false ∧
    (evaluateEPOItems []).allPassed = true :=
  empty_dependencies_never_updated demoStore ⟨10, some "Working on it", none⟩
    (Or.inl rfl)

/-- Claim C3 counterexample: requesting ids 1 and 2 from a store where id 2
has been deleted returns only item 1; no NotFound failure occurs and the
aggregate evaluates as ready on the basis of the single returned item. -/
theorem partial_fetch_evaluates_ready :
    (checkAllEPOsQAPassed (fetchEPOItems demoStore [1, 2])).allPassed = true ∧
    demoStore.epoStatus 2 = none ∧
    fetchEPOItems demoStore [1, 2] = some [⟨1, some "QA Passed"⟩] := by decide

/-- Claim C3 amended: when the store returns fewer items than requested,
the operation does not fail; missing ids are silently dropped and the
aggregate is computed over the returned items only, so a partial response
whose returned items are all ready evaluates as ready even though a
requested id no longer exists. -/
theorem missing_ids_silently_dropped (st : Store) (ids : List Nat)
    (returned : List EPOItem)
    (hfe : fetchEPOItems st ids = some returned)
    (hmissing : ∃ i ∈ ids, st.epoStatus i = none)
    (hready : ∀ e ∈ returned, isReadyStatus e.statusText = true) :
    (checkAllEPOsQAPassed (fetchEPOItems st ids)).allPassed = true ∧
    (checkAllEPOsQAPassed (fetchEPOItems st ids)).totalCount = returned.length := by
  rw [hfe]
  exact ⟨(evaluateEPOItems_allPassed_iff returned).mpr hready, rfl⟩

/-- Claim C3 witness: the partial response for the request of ids 1 and 2. -/
theorem missing_ids_silently_dropped_witness :
    (checkAllEPOsQAPassed (fetchEPOItems demoStore [1, 2])).allPassed = true ∧
    (checkAllEPOsQAPassed (fetchEPOItems demoStore [1, 2])).totalCount =
      [(⟨1, some "QA Passed"⟩ : EPOItem)].length :=
  missing_ids_silently_dropped demoStore [1, 2] [⟨1, some "QA Passed"⟩]
    (by decide) (by decide) (by decide)

/-- Claim C4 counterexample: a bulk item linked to EPO ids 1 and 2, where
id 2 has been deleted from the store, is mutated even though dependency 2
is not Ready or Excluded. -/
theorem mutation_despite_deleted_dependency :
    (processBulkItem demoStore ⟨10, none, some [1, 2]⟩).mutationIssued = true ∧
    (processBulkItem demoStore ⟨10, none, some [1, 2]⟩).updated = true ∧
    depReady demoStore 2 = false ∧
    demoStore.epoStatus 2 = none := by decide

/-- Claim C4 amended: the status mutation is issued only when the current
status is neither "To Do" nor "Done", the linked dependency list is present
and non-empty, the batched status fetch succeeded, and every dependency
item actually returned by that fetch is Ready or Excluded (dependencies
deleted from the store are dropped from the response and are not checked);
items already "To Do" or "Done" are skipped with no mutation and outcome
updated false with an Already reason. -/
theorem mutation_guard_conditions (st : Store) (b : BulkItemData) :
    ((processBulkItem st b).mutationIssued = true →
      jsOr b.statusText "No status" ≠ "To Do" ∧
      jsOr b.statusText "No status" ≠ "Done" ∧
      ∃ ids, b.epoIds = some ids ∧ ids ≠ [] ∧ st.fetchOk ids = true ∧
        ∀ e ∈ (fetchEPOItems st ids).getD [],
          isReadyStatus e.statusText = true) ∧
    ((jsOr b.statusText "No status" = "To Do" ∨
        jsOr b.statusText "No status" = "Done") →
      processBulkItem st b =
        { updated := false,
          reason := some ("Already " ++ jsOr b.statusText "No status"),
          mutationIssued := false }) := by
  have spec := processBulkItem_spec st b
  refine ⟨fun hmi => ?_, spec.2.2.2⟩
  rcases spec.1.mp hmi with ⟨hterm, ids, hids, hne, hall⟩
  have hfok : st.fetchOk ids = true := by
    cases hf : st.fetchOk ids
    · have hno : fetchEPOItems st ids = none := by simp [fetchEPOItems, hf]
      rw [hno] at hall
      exact absurd hall (by simp [checkAllEPOsQAPassed])
    · rfl
  have hfe : fetchEPOItems st ids =
      some (ids.filterMap (fun i =>
        (st.epoStatus i).map (fun s => { id := i, statusText := s }))) := by
    simp [fetchEPOItems, hfok]
  rw [hfe] at hall
  have hready := (evaluateEPOItems_allPassed_iff _).mp hall
  refine ⟨fun hc => hterm (Or.inl hc), fun hc => hterm (Or.inr hc),
    ids, hids, by simpa using hne, hfok, ?_⟩
  rw [hfe]
  simpa using hready

/-- Claim C4 witness: a bulk item already "To Do" is skipped with the
Already reason and no mutation. -/
theorem mutation_guard_conditions_witness :
    processBulkItem demoStore ⟨10, some "To Do", some [1]⟩ =
      { updated := false, reason := some "Already To Do",
        mutationIssued := false } := by
  have h := (mutation_guard_conditions demoStore ⟨10, some "To Do", some [1]⟩).2
    (Or.inl (by decide))
  rw [h]
  decide

/-- Claim C5: for every store and every snapshot of bulk items, running the
full sweep a second time over the state produced by the first run, with the
store otherwise unchanged, reports zero updated items: every item the first
run updated is now "To Do" and is skipped, and every other item repeats its
first outcome. -/
theorem full_sweep_idempotent (st : Store) (bulkItems : List BulkItemData) :
    (runEPOBulkAutomation st (runEPOBulkAutomation st bulkItems).2).1.updated = 0 := by
  simp only [runEPOBulkAutomation, runOutcomes, List.map_map]
  rw [List.length_eq_zero, List.filter_eq_nil_iff]
  intro o ho
  simp only [List.mem_map, Function.comp] at ho
  rcases ho with ⟨b, _, rfl⟩
  simp [second_pass_no_update]

/-- Claim C6 counterexample: over a store that rejects the mutation for an
otherwise eligible and ready item, the dry run counts one would-update
while the live run reports zero updated, so the two counts differ. -/
theorem dry_run_count_exceeds_live_on_rejection :
    (dryRunEPOBulkAutomation mutRejectStore [⟨10, none, some [1]⟩]).1 = 1 ∧
    (runEPOBulkAutomation mutRejectStore [⟨10, none, some [1]⟩]).1.updated = 0 := by
  decide

/-- Claim C6 amended: the dry run issues no mutation call for any store and
snapshot, and its would-update count equals the updated count of a live run
over the same state provided the remote accepts every mutation the live run
issues; a rejected mutation makes the live count strictly smaller. -/
theorem dry_run_no_mutation_and_count_agreement (st : Store)
    (bulkItems : List BulkItemData) :
    (dryRunEPOBulkAutomation st bulkItems).2 = [] ∧
    ((∀ b ∈ bulkItems, st.mutateOk b.id = true) →
      (dryRunEPOBulkAutomation st bulkItems).1 =
        (runEPOBulkAutomation st bulkItems).1.updated) := by
  refine ⟨rfl, fun hm => ?_⟩
  simp only [dryRunEPOBulkAutomation, runEPOBulkAutomation, runOutcomes]
  rw [List.filter_map, List.length_map]
  exact congrArg List.length
    (List.filter_congr (fun b hb => by
      simp [Function.comp, dryRunWouldUpdate_eq_updated st b (hm b hb)]))

/-- Claim C6 witness: dry and live counts agree over a store that accepts
all mutations. -/
theorem dry_run_no_mutation_and_count_agreement_witness :
    (dryRunEPOBulkAutomation demoStore [⟨10, none, some [1]⟩]).1 =
      (runEPOBulkAutomation demoStore [⟨10, none, some [1]⟩]).1.updated :=
  (dry_run_no_mutation_and_count_agreement demoStore [⟨10, none, some [1]⟩]).2
    (by decide)

/-- Claim C7: the run summary always covers all items of the snapshot
(processed equals the snapshot length and there is one outcome per item),
updated counts exactly the successful outcomes, every outcome that is not
an update carries a reason, and an item whose mutation the remote rejects
ends with updated false and a reason while the rest of the run is
unaffected. -/
theorem per_item_failure_isolated (st : Store) (bulkItems : List BulkItemData) :
    (runEPOBulkAutomation st bulkItems).1.processed = bulkItems.length ∧
    (runEPOBulkAutomation st bulkItems).1.updated =
      ((runOutcomes st bulkItems).filter (fun o => o.updated)).length ∧
    (runOutcomes st bulkItems).length = bulkItems.length ∧
    ∀ b ∈ bulkItems,
      (processBulkItem st b).reason.isSome = !(processBulkItem st b).updated ∧
      (st.mutateOk b.id = false →
        (processBulkItem st b).updated = false ∧
        (processBulkItem st b).reason.isSome = true) := by
  refine ⟨rfl, rfl, by simp [runOutcomes], fun b _ => ?_⟩
  have spec := processBulkItem_spec st b
  refine ⟨spec.2.2.1, fun hmf => ?_⟩
  have hu : (processBulkItem st b).updated = false := by
    cases hy : (processBulkItem st b).updated
    · rfl
    · have hmm := (spec.2.1.mp hy).2
      rw [hmf] at hmm
      exact absurd hmm (by simp)
  refine ⟨hu, ?_⟩
  rw [spec.2.2.1, hu]
  rfl

/-- Claim C7 witness: a rejected mutation leaves the item not updated with
a reason recorded. -/
theorem per_item_failure_isolated_witness :
    (processBulkItem mutRejectStore ⟨10, none, some [1]⟩).updated = false ∧
    (processBulkItem mutRejectStore ⟨10, none, some [1]⟩).reason.isSome = true :=
  ((per_item_failure_isolated mutRejectStore [⟨10, none, some [1]⟩]).2.2.2
    ⟨10, none, some [1]⟩ (by simp)).2 rfl

/-- Claim C8 counterexample: a payload whose changed column is the EPO
status column and whose new label is "QA Passed", but which carries no
pulseId, does not result in a targeted run, refuting the stated
equivalence. -/
theorem qualifying_payload_without_item_id_ignored :
    isTargetedRun (processWebhookEvent payloadNoPulseId) = false ∧
    payloadNoPulseId.event.bind (fun e => e.columnId) = some EPO_STATUS_COLUMN ∧
    payloadNoPulseId.event.bind (fun e => e.labelText) = some "QA Passed" := by
  decide

/-- Claim C8 amended: an inbound notification results in a targeted run
exactly when its resolved event type is update_column_value, its changed
column is the configured EPO status column, its new label is "QA Passed"
or "Cancelled", and it carries a truthy changed-item id; every other
payload takes a no-action path. -/
theorem targeted_run_trigger_characterization (p : WebhookPayload) :
    isTargetedRun (processWebhookEvent p) = true ↔
      eventTypeOf p = "update_column_value" ∧
      p.event.bind (fun e => e.columnId) = some EPO_STATUS_COLUMN ∧
      (p.event.bind (fun e => e.labelText) = some "QA Passed" ∨
        p.event.bind (fun e => e.labelText) = some "Cancelled") ∧
      ∃ n, p.event.bind (fun e => e.pulseId) = some n ∧ n ≠ 0 := by
  by_cases h1 : eventTypeOf p = "update_column_value" ∧
      p.event.bind (fun e => e.columnId) = some EPO_STATUS_COLUMN
  · by_cases h2 : jsTruthy (p.event.bind (fun e => e.labelText)) = true ∧
        (p.event.bind (fun e => e.labelText) = some "QA Passed" ∨
          p.event.bind (fun e => e.labelText) = some "Cancelled")
    · cases hp : p.event.bind (fun e => e.pulseId) with
      | none => simp [processWebhookEvent, isTargetedRun, h1, h2, hp]
      | some n =>
          by_cases hn : n = 0
          · subst hn
            simp [processWebhookEvent, isTargetedRun, h1, h2, hp]
          · simp [processWebhookEvent, isTargetedRun, h1, h2, hp, hn]
    · have hr : ¬(p.event.bind (fun e => e.labelText) = some "QA Passed" ∨
          p.event.bind (fun e => e.labelText) = some "Cancelled") := by
        intro hx
        apply h2
        refine ⟨?_, hx⟩
        rcases hx with hx | hx <;> rw [hx] <;> rfl
      simp [processWebhookEvent, isTargetedRun, h1, h2, hr]
  · simp only [processWebhookEvent, isTargetedRun]
    rw [if_neg h1]
    simp only [Bool.false_eq_true, false_iff]
    intro hc
    exact h1 ⟨hc.1, hc.2.1⟩

/-- Claim C9: when the changed EPO item exists and every bulk-board link
resolves in the store, the items a targeted run processes are exactly the
linked items whose host board is the configured bulk board, links to other
boards being discarded, and when no such links remain the run returns zero
processed and zero updated. -/
theorem targeted_scope_exact (st : Store) (epoId : Nat)
    (cols : List (List LinkedItem))
    (hrel : st.epoRelations epoId = some cols)
    (hwf : ∀ i b, st.bulkLookup i = some b → b.id = i)
    (hall : ∀ i ∈ connectedBulkIds cols, (st.bulkLookup i).isSome = true) :
    (targetedBulkItems st epoId).map (fun b => b.id) = connectedBulkIds cols ∧
    ((connectedBulkIds cols).isEmpty = true →
      (processEPOConnections st epoId).1 = { processed := 0, updated := 0 }) := by
  constructor
  · have ht : targetedBulkItems st epoId =
        (connectedBulkIds cols).filterMap st.bulkLookup := by
      simp [targetedBulkItems, hrel]
    rw [ht]
    exact filterMap_lookup_ids st.bulkLookup hwf (connectedBulkIds cols) hall
  · intro hemp
    simp [processEPOConnections, hrel, hemp]

/-- Claim C9 witness: EPO 5 links to bulk item 10 on the bulk board and to
item 99 on an unrelated board; the targeted run processes exactly item 10. -/
theorem targeted_scope_exact_witness :
    (targetedBulkItems relStore 5).map (fun b => b.id) =
      connectedBulkIds [[⟨10, BULK_BOARD_ID⟩, ⟨99, "1234"⟩]] := by
  have hwf : ∀ i b, relStore.bulkLookup i = some b → b.id = i := by
    intro i b h
    by_cases hi : i = 10
    · subst hi
      simp [relStore] at h
      rw [← h]
    · simp [relStore, hi] at h
  exact (targeted_scope_exact relStore 5 [[⟨10, BULK_BOARD_ID⟩, ⟨99, "1234"⟩]]
    (by decide) hwf (by decide)).1

/-- Claim C10: when the batched dependency fetch fails, the evaluation
returns allPassed false with zero counts instead of propagating the error,
and the caller issues no status mutation for that item. -/
theorem fetch_failure_never_mutates (st : Store) (b : BulkItemData)
    (ids : List Nat) (hids : b.epoIds = some ids)
    (hfail : st.fetchOk ids = false) :
    checkAllEPOsQAPassed (fetchEPOItems st ids) =
      { allPassed := false, qaPassedCount := 0, totalCount := 0 } ∧
    (processBulkItem st b).updated = false ∧
    (processBulkItem st b).mutationIssued = false := by
  have hfe : fetchEPOItems st ids = none := by simp [fetchEPOItems, hfail]
  have hc : checkAllEPOsQAPassed (fetchEPOItems st ids) =
      { allPassed := false, qaPassedCount := 0, totalCount := 0 } := by
    rw [hfe]
    rfl
  have spec := processBulkItem_spec st b
  have hmi : (processBulkItem st b).mutationIssued = false := by
    cases hx : (processBulkItem st b).mutationIssued
    · rfl
    · rcases spec.1.mp hx with ⟨_, ids2, hids2, _, hall⟩
      rw [hids] at hids2
      rw [Option.some.injEq] at hids2
      subst hids2
      rw [hc] at hall
      exact absurd hall (by simp)
  have hu : (processBulkItem st b).updated = false := by
    cases hy : (processBulkItem st b).updated
    · rfl
    · have hz := (spec.2.1.mp hy).1
      rw [hmi] at hz
      exact absurd hz (by simp)
  exact ⟨hc, hu, hmi⟩

/-- Claim C10 witness: over a store whose batched fetch always fails, the
item with one linked EPO is not updated and no mutation is issued. -/
theorem fetch_failure_never_mutates_witness :
    checkAllEPOsQAPassed (fetchEPOItems fetchFailStore [1]) =
      { allPassed := false, qaPassedCount := 0, totalCount := 0 } ∧
    (processBulkItem fetchFailStore ⟨10, none, some [1]⟩).updated = false ∧
    (processBulkItem fetchFailStore ⟨10, none, some [1]⟩).mutationIssued = false :=
  fetch_failure_never_mutates fetchFailStore ⟨10, none, some [1]⟩ [1] rfl rfl
